import Mathlib

/-!
Verification of pkg/kubernetes/informers.go.

A shallow embedding of the informer manager of the vSphere CSI driver
(file pkg/kubernetes/informers.go) together with theorems settling the
specification claims about it.

Modelling conventions:
* Go pointers and channels are modelled by natural-number identities
  handed out by explicit allocators (pointer equality becomes equality
  of these identities).
* The external watch-cache primitive (client-go shared index informer)
  is modelled by the parameters of its construction: two informers are
  the same primitive exactly when they were obtained from the same
  factory for the same resource kind, or are the same filtered informer.
* `cache.WaitForCacheSync` and the error result of `AddEventHandler`
  are environment-determined; they enter the model as explicit oracle
  parameters (`cacheSyncOutcome`, `attachErr`).
* A Go nil channel returned from `Listen` is modelled as `none`.
-/

set_option autoImplicit false

namespace Informers

/-- Go time.Duration: one minute in nanoseconds. -/
def timeMinute : Nat := 60 * 1000000000

/-- Source constant: the resync interval of the configmap informer,
`resyncPeriodConfigMapInformer = 30 * time.Minute`. -/
def resyncPeriodConfigMapInformer : Nat := 30 * timeMinute

/-- Source function `noResyncPeriodFunc`, which returns 0. -/
def noResyncPeriodFunc : Nat := 0

/-- The resource kinds for which the manager can create a watcher. -/
inductive ResourceKind where
  | nodes
  | csiNodes
  | persistentVolumeClaims
  | persistentVolumes
  | namespaces
  | configMaps
  | pods
  | volumeAttachments
  deriving DecidableEq

/-- Identity of a watch-cache primitive: how it was constructed.
A shared informer factory caches one informer per resource kind, so a
factory informer is identified by the factory construction parameters
(client, resync period) and the kind; a filtered configmap informer
(`v1.NewFilteredConfigMapInformer`) is a separate primitive identified
by its own construction parameters. -/
inductive InformerSource where
  | fromFactory (factoryClient : Nat) (factoryResync : Nat) (kind : ResourceKind)
  | filteredConfigMap (client : Nat) (ns : String) (resync : Nat)
  deriving DecidableEq

/-- A shared index informer handle: its identity (construction source)
plus the number of successfully attached event handlers. -/
structure SharedIndexInformer where
  source : InformerSource
  handlers : Nat
  deriving DecidableEq

/-- A synced predicate handle (`informer.HasSynced`): a method value of
the informer it was taken from, identified by that informer. -/
structure SyncedPred where
  informer : InformerSource
  deriving DecidableEq

/-- The error that `AddEventHandler` can return. -/
inductive AttachError where
  | handlerRejected
  deriving DecidableEq

/-- The `InformerManager` struct of the source.  `addr` is the
allocation identity of the Go pointer; `stopCh` the identity of the
channel obtained from `signals.SetupSignalHandler()`; `factoryClient`
and `factoryResync` the construction parameters of the shared informer
factory; `nextChan` the allocator for fresh channels made by
`make(chan struct)` inside methods of this manager. -/
structure InformerManager where
  addr : Nat
  client : Nat
  stopCh : Nat
  factoryClient : Nat
  factoryResync : Nat
  nextChan : Nat
  nodeInformer : Option SharedIndexInformer := none
  pvcInformer : Option SharedIndexInformer := none
  pvInformer : Option SharedIndexInformer := none
  namespaceInformer : Option SharedIndexInformer := none
  configMapInformer : Option SharedIndexInformer := none
  podInformer : Option SharedIndexInformer := none
  volumeAttachmentInformer : Option SharedIndexInformer := none
  pvSynced : Option SyncedPred := none
  pvcSynced : Option SyncedPred := none
  podSynced : Option SyncedPred := none
  configMapSynced : Option SyncedPred := none
  namespaceSynced : Option SyncedPred := none
  deriving DecidableEq

/-- The package-level state: the two singleton slots
`inClusterInformerManagerInstance` and
`supervisorInformerManagerInstance`, plus the allocator for fresh
pointer/channel identities. -/
structure GlobalState where
  nextId : Nat
  inClusterInformerManagerInstance : Option InformerManager := none
  supervisorInformerManagerInstance : Option InformerManager := none
  deriving DecidableEq

/-- The state at process start: both singleton slots are nil. -/
def initialState : GlobalState :=
  { nextId := 0
  , inClusterInformerManagerInstance := none
  , supervisorInformerManagerInstance := none }

/-- Result of a call to `NewInformer`: the returned manager, the new
package state, and the log messages emitted. -/
structure NewInformerResult where
  mgr : InformerManager
  state : GlobalState
  logs : List String
  deriving DecidableEq

/-- Embedding of `NewInformer(ctx, client, inClusterClnt)`.  Under the
identity-scoped lock it reads the singleton slot for the chosen
identity; if the slot is nil it builds a fresh manager (allocating a
pointer identity and the signal-handler stop channel), stores it in the
slot and logs creation; otherwise it returns the stored instance and
the client argument is unused. -/
def NewInformer (s : GlobalState) (client : Nat) (inClusterClnt : Bool) :
    NewInformerResult :=
  let informerInstance :=
    if inClusterClnt then s.inClusterInformerManagerInstance
    else s.supervisorInformerManagerInstance
  match informerInstance with
  | some inst => { mgr := inst, state := s, logs := [] }
  | none =>
    let inst : InformerManager :=
      { addr := s.nextId
      , client := client
      , stopCh := s.nextId + 1
      , factoryClient := client
      , factoryResync := noResyncPeriodFunc
      , nextChan := s.nextId + 2 }
    if inClusterClnt then
      { mgr := inst
      , state :=
          { s with
            nextId := s.nextId + 2
            inClusterInformerManagerInstance := some inst }
      , logs := ["Created new informer factory for in-cluster client"] }
    else
      { mgr := inst
      , state :=
          { s with
            nextId := s.nextId + 2
            supervisorInformerManagerInstance := some inst }
      , logs := ["Created new informer factory for supervisor client"] }

/-- Well-formedness of the package state: every stored manager was
allocated below the allocator frontier, its stop channel is below its
own channel allocator, and the two slots hold distinct allocations. -/
def wfSlot (n : Nat) : Option InformerManager → Bool
  | none => true
  | some m => decide (m.addr < n) && decide (m.stopCh < m.nextChan)

def GlobalState.wf (s : GlobalState) : Bool :=
  wfSlot s.nextId s.inClusterInformerManagerInstance &&
  wfSlot s.nextId s.supervisorInformerManagerInstance &&
  (match s.inClusterInformerManagerInstance,
         s.supervisorInformerManagerInstance with
   | some a, some b => decide (a.addr ≠ b.addr)
   | _, _ => true)

/-- Result of a listener-registration call.  The Go functions return
nothing, so no error component exists here; `runStopCh` records the
channel passed to a `go informer.Run(stopCh)` launch when one happens,
and `logs` the log messages emitted during the call (the registration
functions of the source contain no log statement). -/
structure RegResult where
  im : InformerManager
  runStopCh : Option Nat
  logs : List String
  deriving DecidableEq

/-- `AddEventHandler` on a primitive: on success the handler triple is
attached, on error it is not. -/
def attachHandler (i : SharedIndexInformer) : Option AttachError →
    SharedIndexInformer
  | none => { i with handlers := i.handlers + 1 }
  | some _ => i

/-- Embedding of `InformerManager.AddNodeListener`: lazily creates the
nodes informer from the factory into the `nodeInformer` field, then
attaches the handler; an attach error is discarded
(`if err != nil err-return`). -/
def InformerManager.AddNodeListener (im : InformerManager)
    (attachErr : Option AttachError) : RegResult :=
  let inf :=
    match im.nodeInformer with
    | none =>
      { source := InformerSource.fromFactory im.factoryClient im.factoryResync
          ResourceKind.nodes
      , handlers := 0 }
    | some i => i
  let inf := attachHandler inf attachErr
  { im := { im with nodeInformer := some inf }
  , runStopCh := none
  , logs := [] }

/-- Embedding of `InformerManager.AddCSINodeListener`.  Faithful to the
source: the nil check and the store both use the `nodeInformer` field
(not a CSINode-specific field), and the CSINodes informer from the
factory is only created when `nodeInformer` is nil; the handler is then
attached to whatever `nodeInformer` holds. -/
def InformerManager.AddCSINodeListener (im : InformerManager)
    (attachErr : Option AttachError) : RegResult :=
  let inf :=
    match im.nodeInformer with
    | none =>
      { source := InformerSource.fromFactory im.factoryClient im.factoryResync
          ResourceKind.csiNodes
      , handlers := 0 }
    | some i => i
  let inf := attachHandler inf attachErr
  { im := { im with nodeInformer := some inf }
  , runStopCh := none
  , logs := [] }

/-- Embedding of `InformerManager.AddPVCListener`: lazily creates the
PVC informer, sets `pvcSynced` to its HasSynced before attaching the
handler, attaches, and discards any attach error. -/
def InformerManager.AddPVCListener (im : InformerManager)
    (attachErr : Option AttachError) : RegResult :=
  let inf :=
    match im.pvcInformer with
    | none =>
      { source := InformerSource.fromFactory im.factoryClient im.factoryResync
          ResourceKind.persistentVolumeClaims
      , handlers := 0 }
    | some i => i
  let synced := some { informer := inf.source : SyncedPred }
  let inf := attachHandler inf attachErr
  { im := { im with pvcInformer := some inf, pvcSynced := synced }
  , runStopCh := none
  , logs := [] }

/-- Embedding of `InformerManager.AddPVListener`. -/
def InformerManager.AddPVListener (im : InformerManager)
    (attachErr : Option AttachError) : RegResult :=
  let inf :=
    match im.pvInformer with
    | none =>
      { source := InformerSource.fromFactory im.factoryClient im.factoryResync
          ResourceKind.persistentVolumes
      , handlers := 0 }
    | some i => i
  let synced := some { informer := inf.source : SyncedPred }
  let inf := attachHandler inf attachErr
  { im := { im with pvInformer := some inf, pvSynced := synced }
  , runStopCh := none
  , logs := [] }

/-- Embedding of `InformerManager.AddNamespaceListener`: note that the
source sets `im.namespaceSynced = im.namespaceInformer.HasSynced`. -/
def InformerManager.AddNamespaceListener (im : InformerManager)
    (attachErr : Option AttachError) : RegResult :=
  let inf :=
    match im.namespaceInformer with
    | none =>
      { source := InformerSource.fromFactory im.factoryClient im.factoryResync
          ResourceKind.namespaces
      , handlers := 0 }
    | some i => i
  let synced := some { informer := inf.source : SyncedPred }
  let inf := attachHandler inf attachErr
  { im := { im with namespaceInformer := some inf, namespaceSynced := synced }
  , runStopCh := none
  , logs := [] }

/-- Embedding of `InformerManager.AddConfigMapListener`: lazily creates
a filtered configmap informer (outside the factory, with the supplied
client, namespace filter and the 30 minute resync period), sets
`configMapSynced`, attaches the handler; on attach error it returns
before launching the run loop, otherwise it makes a fresh stop channel
and launches `go im.configMapInformer.Run(stopCh)` with it. -/
def InformerManager.AddConfigMapListener (im : InformerManager)
    (client : Nat) (ns : String) (attachErr : Option AttachError) : RegResult :=
  let inf :=
    match im.configMapInformer with
    | none =>
      { source := InformerSource.filteredConfigMap client ns
          resyncPeriodConfigMapInformer
      , handlers := 0 }
    | some i => i
  let synced := some { informer := inf.source : SyncedPred }
  match attachErr with
  | some _ =>
    { im := { im with configMapInformer := some inf, configMapSynced := synced }
    , runStopCh := none
    , logs := [] }
  | none =>
    let inf := attachHandler inf none
    { im :=
        { im with
          configMapInformer := some inf
          configMapSynced := synced
          nextChan := im.nextChan + 1 }
    , runStopCh := some im.nextChan
    , logs := [] }

/-- Embedding of `InformerManager.AddPodListener`. -/
def InformerManager.AddPodListener (im : InformerManager)
    (attachErr : Option AttachError) : RegResult :=
  let inf :=
    match im.podInformer with
    | none =>
      { source := InformerSource.fromFactory im.factoryClient im.factoryResync
          ResourceKind.pods
      , handlers := 0 }
    | some i => i
  let synced := some { informer := inf.source : SyncedPred }
  let inf := attachHandler inf attachErr
  { im := { im with podInformer := some inf, podSynced := synced }
  , runStopCh := none
  , logs := [] }

/-- Embedding of `InformerManager.AddVolumeAttachmentListener`. -/
def InformerManager.AddVolumeAttachmentListener (im : InformerManager)
    (attachErr : Option AttachError) : RegResult :=
  let inf :=
    match im.volumeAttachmentInformer with
    | none =>
      { source := InformerSource.fromFactory im.factoryClient im.factoryResync
          ResourceKind.volumeAttachments
      , handlers := 0 }
    | some i => i
  let inf := attachHandler inf attachErr
  { im := { im with volumeAttachmentInformer := some inf }
  , runStopCh := none
  , logs := [] }

/-- A lister handle: read-only access backed by the cache of one
watch-cache primitive, identified by that primitive. -/
structure Lister where
  backing : InformerSource
  deriving DecidableEq

/-- Embedding of `GetPVLister`: the Lister of the factory informer for
persistent volumes. -/
def InformerManager.GetPVLister (im : InformerManager) : Lister :=
  { backing := InformerSource.fromFactory im.factoryClient im.factoryResync
      ResourceKind.persistentVolumes }

/-- Embedding of `GetPVCLister`. -/
def InformerManager.GetPVCLister (im : InformerManager) : Lister :=
  { backing := InformerSource.fromFactory im.factoryClient im.factoryResync
      ResourceKind.persistentVolumeClaims }

/-- Embedding of `GetConfigMapLister`: the source calls
`im.informerFactory.Core().V1().ConfigMaps().Lister()`, so the backing
primitive is the factory informer for configmaps. -/
def InformerManager.GetConfigMapLister (im : InformerManager) : Lister :=
  { backing := InformerSource.fromFactory im.factoryClient im.factoryResync
      ResourceKind.configMaps }

/-- Embedding of `GetPodLister`. -/
def InformerManager.GetPodLister (im : InformerManager) : Lister :=
  { backing := InformerSource.fromFactory im.factoryClient im.factoryResync
      ResourceKind.pods }

/-- Result of `Listen`: the channel handed to the background
`informerFactory.Start` goroutine, and the returned stop channel
(`none` models the nil channel produced by the bare `return`). -/
structure ListenResult where
  factoryStartStopCh : Nat
  result : Option Nat
  deriving DecidableEq

/-- Embedding of `InformerManager.Listen`.  `cacheSyncOutcome` is the
environment-determined result of `cache.WaitForCacheSync`: `true` when
every tracked predicate reported synced, `false` when the stop channel
fired first.  The factory start goroutine always receives `im.stopCh`;
the barrier runs only when all four of pvSynced, pvcSynced, podSynced
and configMapSynced are non-nil, and a failed wait makes the function
return the zero value of the named result (a nil channel). -/
def InformerManager.Listen (im : InformerManager) (cacheSyncOutcome : Bool) :
    ListenResult :=
  { factoryStartStopCh := im.stopCh
  , result :=
      if im.pvSynced.isSome && im.pvcSynced.isSome &&
         im.podSynced.isSome && im.configMapSynced.isSome then
        if cacheSyncOutcome then some im.stopCh else none
      else some im.stopCh }

/-- Decidable test that no informer has been created yet on a manager
(the state of a manager fresh out of `NewInformer`). -/
def allInformersUnset (im : InformerManager) : Bool :=
  decide (im.nodeInformer = none) && decide (im.pvcInformer = none) &&
  decide (im.pvInformer = none) && decide (im.namespaceInformer = none) &&
  decide (im.configMapInformer = none) && decide (im.podInformer = none) &&
  decide (im.volumeAttachmentInformer = none)

/-- Concrete fixture: the in-cluster manager created from the initial
package state with client handle 7. -/
def mgrA : InformerManager := (NewInformer initialState 7 true).mgr

/-- Concrete fixture: `mgrA` after registering PV, PVC, pod and
configmap listeners, so all four barrier predicates are set. -/
def mgrAllSynced : InformerManager :=
  ((((mgrA.AddPVListener none).im.AddPVCListener none).im.AddPodListener
      none).im.AddConfigMapListener 7 "vmware-system-csi" none).im

/-- Concrete fixture: `mgrA` after registering a node listener and then
a CSINode listener. -/
def mgrNodeThenCSINode : InformerManager :=
  ((mgrA.AddNodeListener none).im.AddCSINodeListener none).im

/-- Concrete fixture: `mgrA` after registering a configmap listener. -/
def mgrWithCM : InformerManager :=
  (mgrA.AddConfigMapListener 7 "vmware-system-csi" none).im

/-- C1: `NewInformer` is a per-identity singleton.  For any well-formed
package state, two calls with distinct identities (in-cluster vs
supervisor, in either order) return managers with distinct allocation
identities, and a second call with the same identity returns exactly
the result of the first call — same instance, unchanged state, no log —
whatever client handle the second call supplies. -/
theorem C1_newInformer_per_identity_singleton (s : GlobalState)
    (h : s.wf = true) :
    (∀ (i1 i2 : Bool) (c1 c2 : Nat), i1 ≠ i2 →
      ((NewInformer (NewInformer s c1 i1).state c2 i2).mgr).addr ≠
        ((NewInformer s c1 i1).mgr).addr) ∧
    (∀ (i : Bool) (c1 c2 : Nat),
      NewInformer (NewInformer s c1 i).state c2 i =
        { mgr := (NewInformer s c1 i).mgr
        , state := (NewInformer s c1 i).state
        , logs := [] }) := by
  obtain ⟨n, ic, sup⟩ := s
  constructor
  · intro i1 i2 c1 c2 hne
    cases i1 <;> cases i2 <;> first
      | exact absurd rfl hne
      | cases ic <;> cases sup <;>
          simp_all [NewInformer, GlobalState.wf, wfSlot] <;> omega
  · intro i c1 c2
    cases i <;> cases ic <;> cases sup <;> simp [NewInformer]

/-- Witness for C1 at the initial package state: the state is
well-formed, and the supervisor manager created after the in-cluster
manager is a distinct instance. -/
theorem C1_witness :
    GlobalState.wf initialState = true ∧
    ((NewInformer (NewInformer initialState 7 true).state 8 false).mgr).addr ≠
      ((NewInformer initialState 7 true).mgr).addr :=
  ⟨by decide,
   (C1_newInformer_per_identity_singleton initialState (by decide)).1
     true false 7 8 (by decide)⟩

/-- C2: if any of the four tracked synced predicates (pv, pvc, pod,
configmap) is nil, `Listen` skips the synchronization barrier and
returns the live stop channel of the manager, whatever the outcome of a
cache-sync wait would have been (the wait never runs, so the result
does not depend on the cancellation state). -/
theorem C2_listen_skips_barrier_when_predicate_nil (im : InformerManager)
    (h : im.pvSynced = none ∨ im.pvcSynced = none ∨
         im.podSynced = none ∨ im.configMapSynced = none) :
    ∀ cacheSyncOutcome : Bool,
      (im.Listen cacheSyncOutcome).result = some im.stopCh := by
  intro o
  rcases h with h | h | h | h <;> simp [InformerManager.Listen, h]

/-- Witness for C2: a freshly created manager has no predicate set, and
`Listen` returns its stop channel even when the sync outcome would have
been a cancellation. -/
theorem C2_witness :
    mgrA.pvSynced = none ∧ (mgrA.Listen false).result = some mgrA.stopCh :=
  ⟨by decide,
   C2_listen_skips_barrier_when_predicate_nil mgrA (Or.inl (by decide)) false⟩

/-- C3: with all four tracked synced predicates set, `Listen` returns
the nil channel (modelled `none`) when the cache-sync wait is cut short
by cancellation, and the live stop channel of the manager when the wait
completes successfully. -/
theorem C3_listen_barrier_outcome (im : InformerManager)
    (hpv : im.pvSynced.isSome = true) (hpvc : im.pvcSynced.isSome = true)
    (hpod : im.podSynced.isSome = true) (hcm : im.configMapSynced.isSome = true) :
    (im.Listen false).result = none ∧
    (im.Listen true).result = some im.stopCh := by
  constructor <;> simp [InformerManager.Listen, hpv, hpvc, hpod, hcm]

/-- Witness for C3 on a manager with PV, PVC, pod and configmap
listeners registered. -/
theorem C3_witness :
    (mgrAllSynced.pvSynced.isSome = true ∧
     mgrAllSynced.pvcSynced.isSome = true ∧
     mgrAllSynced.podSynced.isSome = true ∧
     mgrAllSynced.configMapSynced.isSome = true) ∧
    (mgrAllSynced.Listen false).result = none :=
  ⟨⟨by decide, by decide, by decide, by decide⟩,
   (C3_listen_barrier_outcome mgrAllSynced (by decide) (by decide)
     (by decide) (by decide)).1⟩

/-- C4 counterexample: the claim that the stop channel passed to the
configmap run loop is the stop channel of the manager is false on a
concrete manager: the run loop of the configmap informer is launched
with a freshly made channel, not with the stop channel held by the
manager. -/
theorem C4_counterexample :
    ¬ ((mgrA.AddConfigMapListener 7 "vmware-system-csi" none).runStopCh =
        some mgrA.stopCh) := by decide

/-- C4 amended: the shared factory batch-start launched by `Listen`
does receive the stop channel of the manager, but the run loop of the
configmap informer receives a fresh channel distinct from it, so firing
the cancellation signal of the manager does not stop the configmap
watcher. -/
theorem C4_amended_cancellation_signal (im : InformerManager)
    (h : im.stopCh < im.nextChan) :
    (∀ o : Bool, (im.Listen o).factoryStartStopCh = im.stopCh) ∧
    (∀ (client : Nat) (ns : String),
      (im.AddConfigMapListener client ns none).runStopCh = some im.nextChan ∧
      (im.AddConfigMapListener client ns none).runStopCh ≠ some im.stopCh) := by
  refine ⟨fun o => rfl, fun client ns => ?_⟩
  cases him : im.configMapInformer <;>
    simp [InformerManager.AddConfigMapListener, him] <;> omega

/-- Witness for C4 amended at a concrete manager. -/
theorem C4_witness :
    mgrA.stopCh < mgrA.nextChan ∧
    (mgrA.AddConfigMapListener 9 "kube-system" none).runStopCh ≠
      some mgrA.stopCh :=
  ⟨by decide,
   ((C4_amended_cancellation_signal mgrA (by decide)).2 9 "kube-system").2⟩

/-- C5: evaluation of the code at the failing input.  On a fresh
manager, registering a node listener and then a CSINode listener does
NOT yield two distinct watchers: `AddCSINodeListener` guards and stores
through the `nodeInformer` field, so the CSINode callback lands as a
second handler on the factory informer for nodes, and no CSINode
primitive is created anywhere on the manager (every other informer
field stays nil). -/
theorem C5_code_bug_eval :
    mgrNodeThenCSINode.nodeInformer =
      some { source := InformerSource.fromFactory 7 0 ResourceKind.nodes
           , handlers := 2 } ∧
    mgrNodeThenCSINode.pvcInformer = none ∧
    mgrNodeThenCSINode.pvInformer = none ∧
    mgrNodeThenCSINode.namespaceInformer = none ∧
    mgrNodeThenCSINode.configMapInformer = none ∧
    mgrNodeThenCSINode.podInformer = none ∧
    mgrNodeThenCSINode.volumeAttachmentInformer = none := by decide

/-- C6 counterexample: on a concrete manager with a configmap listener
registered, the primitive backing `GetConfigMapLister` is not the
primitive that `AddConfigMapListener` created: the lister is backed by
the factory informer for configmaps, while the listener sits on the
filtered configmap informer. -/
theorem C6_counterexample :
    ¬ (some (mgrWithCM.GetConfigMapLister).backing =
        mgrWithCM.configMapInformer.map SharedIndexInformer.source) := by
  decide

/-- C6 amended: `GetConfigMapLister` returns a read-only handle backed
by the configmap informer of the shared factory, which is a distinct
watch-cache primitive from the filtered configmap informer that
`AddConfigMapListener` creates and whose run loop it starts. -/
theorem C6_amended_configmap_lister_backing (im : InformerManager)
    (client : Nat) (ns : String) (h : im.configMapInformer = none) :
    (im.GetConfigMapLister).backing =
      InformerSource.fromFactory im.factoryClient im.factoryResync
        ResourceKind.configMaps ∧
    ((im.AddConfigMapListener client ns none).im.configMapInformer.map
        SharedIndexInformer.source) =
      some (InformerSource.filteredConfigMap client ns
        resyncPeriodConfigMapInformer) ∧
    some (im.GetConfigMapLister).backing ≠
      ((im.AddConfigMapListener client ns none).im.configMapInformer.map
        SharedIndexInformer.source) := by
  refine ⟨rfl, ?_, ?_⟩ <;>
    simp [InformerManager.AddConfigMapListener, h, attachHandler,
      InformerManager.GetConfigMapLister]

/-- Witness for C6 amended at a concrete manager. -/
theorem C6_witness :
    mgrA.configMapInformer = none ∧
    some (mgrA.GetConfigMapLister).backing ≠
      ((mgrA.AddConfigMapListener 9 "kube-system" none).im.configMapInformer.map
        SharedIndexInformer.source) :=
  ⟨by decide,
   (C6_amended_configmap_lister_backing mgrA 9 "kube-system" (by decide)).2.2⟩

/-- C7 counterexample: the claim that the namespace listener does not
set a synced predicate on the manager is false: on a concrete fresh
manager, `AddNamespaceListener` sets the `namespaceSynced` field. -/
theorem C7_counterexample :
    ¬ ((mgrA.AddNamespaceListener none).im.namespaceSynced = none) := by
  decide

/-- C7 amended: the node, CSINode and volume-attachment listeners set
no synced predicate (every synced field of the manager is unchanged by
them), while the namespace listener does set `namespaceSynced`; that
predicate is however not consulted by the barrier: `Listen` is
insensitive to the value of `namespaceSynced`, and only pv, pvc, pod
and configmap gate it. -/
theorem C7_amended_synced_tracking :
    (∀ (im : InformerManager) (e : Option AttachError),
      (im.AddNodeListener e).im.pvSynced = im.pvSynced ∧
      (im.AddNodeListener e).im.pvcSynced = im.pvcSynced ∧
      (im.AddNodeListener e).im.podSynced = im.podSynced ∧
      (im.AddNodeListener e).im.configMapSynced = im.configMapSynced ∧
      (im.AddNodeListener e).im.namespaceSynced = im.namespaceSynced) ∧
    (∀ (im : InformerManager) (e : Option AttachError),
      (im.AddCSINodeListener e).im.pvSynced = im.pvSynced ∧
      (im.AddCSINodeListener e).im.pvcSynced = im.pvcSynced ∧
      (im.AddCSINodeListener e).im.podSynced = im.podSynced ∧
      (im.AddCSINodeListener e).im.configMapSynced = im.configMapSynced ∧
      (im.AddCSINodeListener e).im.namespaceSynced = im.namespaceSynced) ∧
    (∀ (im : InformerManager) (e : Option AttachError),
      (im.AddVolumeAttachmentListener e).im.pvSynced = im.pvSynced ∧
      (im.AddVolumeAttachmentListener e).im.pvcSynced = im.pvcSynced ∧
      (im.AddVolumeAttachmentListener e).im.podSynced = im.podSynced ∧
      (im.AddVolumeAttachmentListener e).im.configMapSynced =
        im.configMapSynced ∧
      (im.AddVolumeAttachmentListener e).im.namespaceSynced =
        im.namespaceSynced) ∧
    (∀ (im : InformerManager) (e : Option AttachError),
      (im.AddNamespaceListener e).im.namespaceSynced ≠ none) ∧
    (∀ (im : InformerManager) (o : Bool) (p : Option SyncedPred),
      ({ im with namespaceSynced := p } : InformerManager).Listen o =
        im.Listen o) := by
  refine ⟨fun im e => ⟨rfl, rfl, rfl, rfl, rfl⟩,
          fun im e => ⟨rfl, rfl, rfl, rfl, rfl⟩,
          fun im e => ⟨rfl, rfl, rfl, rfl, rfl⟩,
          fun im e => ?_, fun im o p => rfl⟩
  cases him : im.namespaceInformer <;>
    simp [InformerManager.AddNamespaceListener, him]

/-- Attaching a handler never changes which primitive an informer
handle denotes. -/
theorem attachHandler_source (i : SharedIndexInformer)
    (e : Option AttachError) : (attachHandler i e).source = i.source := by
  cases e <;> rfl

/-- C8: the configmap watcher is the only one built outside the shared
factory: it is a filtered configmap informer with the supplied
namespace and the 30 minute resync period, while every other kind is
created from the shared factory of the manager, and that factory is
constructed by `NewInformer` with the zero resync period returned by
`noResyncPeriodFunc`. -/
theorem C8_configmap_informer_special (im : InformerManager)
    (client : Nat) (ns : String) (e : Option AttachError)
    (h : allInformersUnset im = true) :
    resyncPeriodConfigMapInformer = 30 * timeMinute ∧
    noResyncPeriodFunc = 0 ∧
    (∀ (c : Nat) (i : Bool),
      (NewInformer initialState c i).mgr.factoryResync = noResyncPeriodFunc) ∧
    ((im.AddConfigMapListener client ns e).im.configMapInformer.map
        SharedIndexInformer.source) =
      some (InformerSource.filteredConfigMap client ns
        resyncPeriodConfigMapInformer) ∧
    ((im.AddNodeListener e).im.nodeInformer.map SharedIndexInformer.source) =
      some (InformerSource.fromFactory im.factoryClient im.factoryResync
        ResourceKind.nodes) ∧
    ((im.AddCSINodeListener e).im.nodeInformer.map
        SharedIndexInformer.source) =
      some (InformerSource.fromFactory im.factoryClient im.factoryResync
        ResourceKind.csiNodes) ∧
    ((im.AddPVCListener e).im.pvcInformer.map SharedIndexInformer.source) =
      some (InformerSource.fromFactory im.factoryClient im.factoryResync
        ResourceKind.persistentVolumeClaims) ∧
    ((im.AddPVListener e).im.pvInformer.map SharedIndexInformer.source) =
      some (InformerSource.fromFactory im.factoryClient im.factoryResync
        ResourceKind.persistentVolumes) ∧
    ((im.AddNamespaceListener e).im.namespaceInformer.map
        SharedIndexInformer.source) =
      some (InformerSource.fromFactory im.factoryClient im.factoryResync
        ResourceKind.namespaces) ∧
    ((im.AddPodListener e).im.podInformer.map SharedIndexInformer.source) =
      some (InformerSource.fromFactory im.factoryClient im.factoryResync
        ResourceKind.pods) ∧
    ((im.AddVolumeAttachmentListener e).im.volumeAttachmentInformer.map
        SharedIndexInformer.source) =
      some (InformerSource.fromFactory im.factoryClient im.factoryResync
        ResourceKind.volumeAttachments) := by
  simp only [allInformersUnset, Bool.and_eq_true, decide_eq_true_eq] at h
  obtain ⟨⟨⟨⟨⟨⟨hn, hpvc⟩, hpv⟩, hns⟩, hcm⟩, hpod⟩, hva⟩ := h
  refine ⟨rfl, rfl, fun c i => by cases i <;> rfl, ?_, ?_, ?_, ?_, ?_, ?_,
    ?_, ?_⟩ <;>
    cases e <;>
      simp [InformerManager.AddConfigMapListener,
        InformerManager.AddNodeListener, InformerManager.AddCSINodeListener,
        InformerManager.AddPVCListener, InformerManager.AddPVListener,
        InformerManager.AddNamespaceListener, InformerManager.AddPodListener,
        InformerManager.AddVolumeAttachmentListener,
        attachHandler_source, attachHandler, hn, hpvc, hpv, hns, hcm,
        hpod, hva]

/-- Witness for C8 at a concrete fresh manager. -/
theorem C8_witness :
    allInformersUnset mgrA = true ∧
    ((mgrA.AddConfigMapListener 9 "kube-system" none).im.configMapInformer.map
        SharedIndexInformer.source) =
      some (InformerSource.filteredConfigMap 9 "kube-system"
        resyncPeriodConfigMapInformer) :=
  ⟨by decide,
   (C8_configmap_informer_special mgrA 9 "kube-system" none
     (by decide)).2.2.2.1⟩

/-- C9 counterexample: the claim says a failed handler attachment is
logged; on a concrete manager a rejected attachment in
`AddNodeListener` emits no log message at all (the error branch of the
source is a bare return with no log call), which is the negation of
the logging part of the claim at that input. -/
theorem C9_counterexample :
    (mgrA.AddNodeListener (some AttachError.handlerRejected)).logs =
      ([] : List String) := by decide

/-- C9 amended: a failure of the primitive to accept the handler
attachment is silently discarded — no log message is emitted and no
error reaches the caller (the registration has no error result), and
every registration call still completes its state updates, leaving the
informer for its kind created, whether or not the attachment
succeeded. -/
theorem C9_amended_registration_failure_swallowed :
    ∀ (im : InformerManager) (e : Option AttachError) (c : Nat) (ns : String),
      (im.AddNodeListener e).logs = [] ∧
      (im.AddNodeListener e).im.nodeInformer ≠ none ∧
      (im.AddCSINodeListener e).logs = [] ∧
      (im.AddCSINodeListener e).im.nodeInformer ≠ none ∧
      (im.AddPVCListener e).logs = [] ∧
      (im.AddPVCListener e).im.pvcInformer ≠ none ∧
      (im.AddPVListener e).logs = [] ∧
      (im.AddPVListener e).im.pvInformer ≠ none ∧
      (im.AddNamespaceListener e).logs = [] ∧
      (im.AddNamespaceListener e).im.namespaceInformer ≠ none ∧
      (im.AddConfigMapListener c ns e).logs = [] ∧
      (im.AddConfigMapListener c ns e).im.configMapInformer ≠ none ∧
      (im.AddPodListener e).logs = [] ∧
      (im.AddPodListener e).im.podInformer ≠ none ∧
      (im.AddVolumeAttachmentListener e).logs = [] ∧
      (im.AddVolumeAttachmentListener e).im.volumeAttachmentInformer ≠
        none := by
  intro im e c ns
  refine ⟨rfl, by simp [InformerManager.AddNodeListener],
    rfl, by simp [InformerManager.AddCSINodeListener],
    rfl, by simp [InformerManager.AddPVCListener],
    rfl, by simp [InformerManager.AddPVListener],
    rfl, by simp [InformerManager.AddNamespaceListener],
    by cases e <;> rfl,
    by cases e <;> simp [InformerManager.AddConfigMapListener],
    rfl, by simp [InformerManager.AddPodListener],
    rfl, by simp [InformerManager.AddVolumeAttachmentListener]⟩

/-- C10: in `AddConfigMapListener` a failed handler attachment returns
before the run loop is launched (no stop channel is ever passed to a
run), yet `configMapSynced` has already been set unconditionally before
the error check; likewise every sync-tracking registration (pv, pvc,
pod, namespace, configmap) leaves its synced predicate set whatever the
attachment outcome. -/
theorem C10_synced_set_before_error_check :
    ∀ (im : InformerManager) (c : Nat) (ns : String) (err : AttachError)
      (e : Option AttachError),
      (im.AddConfigMapListener c ns (some err)).runStopCh = none ∧
      (im.AddConfigMapListener c ns (some err)).im.configMapSynced ≠ none ∧
      (im.AddPVListener e).im.pvSynced ≠ none ∧
      (im.AddPVCListener e).im.pvcSynced ≠ none ∧
      (im.AddPodListener e).im.podSynced ≠ none ∧
      (im.AddNamespaceListener e).im.namespaceSynced ≠ none ∧
      (im.AddConfigMapListener c ns e).im.configMapSynced ≠ none := by
  intro im c ns err e
  refine ⟨rfl, by simp [InformerManager.AddConfigMapListener],
    by simp [InformerManager.AddPVListener],
    by simp [InformerManager.AddPVCListener],
    by simp [InformerManager.AddPodListener],
    by simp [InformerManager.AddNamespaceListener],
    by cases e <;> simp [InformerManager.AddConfigMapListener]⟩

end Informers
